import Mathlib

/-!
Shallow embedding of the inventory ledger and stock-adjustment engine of the
online-shop product service (Go sources:
`services/product-service/internal/domain`, `.../repository/mongodb/product_repository.go`,
`.../service/product_service.go`).

Modelling choices, stated once:
* MongoDB ObjectIDs are opaque `String`s; the hex-parsing step of the Go code is
  not modelled (all claims are about products addressed by a well-formed id).
* `time.Time` is a `Nat` tick supplied by the caller (`now`); the Go code only
  writes timestamps, it never branches on them.
* `float64` prices are modelled as `Rat`; the only operations performed on a
  price are order comparisons with `0`, on which `Rat` and `float64` agree.
* The MongoDB collections become two lists inside `StoreState`: the `products`
  collection and the `inventory_operations` ledger collection.  `FindOne`
  returns the first list element matching the filter, `ReplaceOne` /
  `UpdateOne` / `FindOneAndUpdate` rewrite the first matching element, and
  `InsertOne` appends — matching the driver's single-document semantics.
* A MongoDB session transaction is all-or-nothing: every operation returns the
  post-transaction `StoreState` next to its result, and each error branch
  returns the *input* state, which is exactly the rollback the Go
  `mongo.WithSession` callback produces when it returns a non-nil error.
* A server-side uniqueness violation on the ledger `InsertOne` can only come
  from a key committed by a concurrent transaction (invisible to this
  transaction's snapshot reads).  The set of such concurrently-committed keys
  is passed in as the `phantomKeys` parameter; the sequential behaviour is
  `phantomKeys = []`.
-/

/-- Embeds Go `domain.InventoryInfo`: the inventory snapshot embedded in a
product document. -/
structure InventoryInfo where
  quantity : Int
  sku : String
  inStock : Bool
  reserved : Int
deriving Repr, DecidableEq

/-- Embeds Go `domain.Product` (catalog document with embedded snapshot). -/
structure Product where
  id : String
  name : String
  description : String
  price : Rat
  imageURLs : List String
  category : String
  inventory : InventoryInfo
  tags : List String
  attributes : List (String × String)
  active : Bool
  createdAt : Nat
  updatedAt : Nat
deriving Repr, DecidableEq

/-- Embeds Go `domain.InventoryOperation`: one ledger record in the
`inventory_operations` collection. -/
structure InventoryOperation where
  productID : String
  quantityChange : Int
  operationID : String
  operationType : String
  timestamp : Nat
deriving Repr, DecidableEq

/-- The two MongoDB collections the engine mutates. -/
structure StoreState where
  products : List Product
  inventoryOperations : List InventoryOperation
deriving Repr, DecidableEq

/-- Errors surfaced by the repository layer (`mongo.ErrNoDocuments` mapped to
"product not found", and a duplicate-key write error on the ledger insert). -/
inductive RepoError where
  | productNotFound
  | duplicateKey
deriving Repr, DecidableEq

/-- Errors surfaced by the service layer.  The Go code wraps causes in
`fmt.Errorf` strings; the constructors keep the kind and the wrapped cause. -/
inductive ServiceError where
  | validation (msg : String)
  | notFound (e : RepoError)
  | invalidOperationType
  | stockCheck (e : RepoError)
  | insufficientStock
  | repository (e : RepoError)
deriving Repr, DecidableEq

/-- `collection.FindOne(bson.M{"_id": objID})` on the products collection. -/
def findProduct (ps : List Product) (productID : String) : Option Product :=
  ps.find? (fun p => p.id == productID)

/-- One-document write on the products collection: rewrite the first document
matching `_id = productID` with `f` (covers `ReplaceOne`, `UpdateOne` and
`FindOneAndUpdate` which all target a single matching document). -/
def writeProduct (ps : List Product) (productID : String) (f : Product → Product) :
    List Product :=
  match ps with
  | [] => []
  | p :: rest =>
      if p.id == productID then f p :: rest
      else p :: writeProduct rest productID f

namespace ProductRepository

/-- Embeds `ProductRepository.Create`: set missing id/timestamps, force
`inventory.in_stock = quantity > 0`, insert the document.  Returns the
document as persisted (the Go code mutates `product` in place). -/
def create (st : StoreState) (now : Nat) (freshID : String) (product : Product) :
    Product × StoreState :=
  let p0 := if product.id = "" then { product with id := freshID } else product
  let p1 := if p0.createdAt = 0 then { p0 with createdAt := now } else p0
  let inv2 := { p1.inventory with inStock := decide (p1.inventory.quantity > 0) }
  let p2 := { p1 with updatedAt := now, inventory := inv2 }
  (p2, { st with products := st.products ++ [p2] })

/-- Embeds `ProductRepository.Update`: refresh `updated_at`, force
`inventory.in_stock = quantity > 0`, `ReplaceOne` on `_id`. -/
def update (st : StoreState) (now : Nat) (product : Product) :
    Product × StoreState :=
  let inv := { product.inventory with inStock := decide (product.inventory.quantity > 0) }
  let p := { product with updatedAt := now, inventory := inv }
  (p, { st with products := writeProduct st.products p.id (fun _ => p) })

/-- The `$inc` + in-stock recomputation tail of
`ProductRepository.UpdateInventory` (lines 254-289): `FindOneAndUpdate` with
`$inc {inventory.quantity}` returning the post-increment document, then
recompute `in_stock` from the new quantity and `UpdateOne` it only if it
changed.  Errors abort the enclosing transaction. -/
def applyIncAndFlag (st : StoreState) (now : Nat) (productID : String)
    (quantityChange : Int) : Except RepoError (InventoryInfo × StoreState) :=
  match findProduct st.products productID with
  | none => .error .productNotFound
  | some product =>
      let newQty := product.inventory.quantity + quantityChange
      let incdInv := { product.inventory with quantity := newQty }
      let incd := { product with updatedAt := now, inventory := incdInv }
      let inStock := decide (newQty > 0)
      let final :=
        if inStock ≠ incd.inventory.inStock then
          { incd with inventory := { incd.inventory with inStock := inStock } }
        else incd
      .ok (final.inventory,
           { st with products := writeProduct st.products productID (fun _ => final) })

/-- Embeds `ProductRepository.UpdateInventory` (lines 195-300), one session
transaction.  With a non-empty `operationID` it first consults the
`inventory_operations` ledger: a hit aborts the inventory write and returns the
current committed snapshot; a miss appends the ledger record (an insert that
races with a concurrently committed identical key — `operationID ∈ phantomKeys`
— fails with a duplicate-key error which the Go code returns as-is, aborting
the transaction).  Then the quantity is incremented and the in-stock flag
recomputed.  Any error rolls the whole transaction back, so every error branch
pairs with the input state. -/
def updateInventory (st : StoreState) (now : Nat) (phantomKeys : List String)
    (productID : String) (quantityChange : Int)
    (operationID operationType : String) :
    Except RepoError InventoryInfo × StoreState :=
  if operationID = "" then
    match applyIncAndFlag st now productID quantityChange with
    | .error e => (.error e, st)
    | .ok (inv, st') => (.ok inv, st')
  else
    match st.inventoryOperations.find? (fun op => op.operationID == operationID) with
    | some _ =>
        match findProduct st.products productID with
        | some product => (.ok product.inventory, st)
        | none => (.error .productNotFound, st)
    | none =>
        if operationID ∈ phantomKeys then (.error .duplicateKey, st)
        else
          let entry : InventoryOperation :=
            { productID := productID, quantityChange := quantityChange,
              operationID := operationID, operationType := operationType,
              timestamp := now }
          let st1 := { st with
            inventoryOperations := st.inventoryOperations ++ [entry] }
          match applyIncAndFlag st1 now productID quantityChange with
          | .error e => (.error e, st)
          | .ok (inv, st') => (.ok inv, st')

/-- Embeds `ProductRepository.CheckStock` (lines 303-324): read the document,
report `(quantity - reserved >= requested, quantity - reserved)`.  Read-only:
no `StoreState` is produced. -/
def checkStock (st : StoreState) (productID : String) (quantity : Int) :
    Except RepoError (Bool × Int) :=
  match findProduct st.products productID with
  | none => .error .productNotFound
  | some product =>
      let availableQuantity := product.inventory.quantity - product.inventory.reserved
      .ok (decide (availableQuantity ≥ quantity), availableQuantity)

end ProductRepository

/-- Embeds the `validateProduct` helper of the service layer: `some msg` is the
validation failure, `none` means the product passes. -/
def validateProduct (product : Product) : Option String :=
  if product.name = "" then some "product name is required"
  else if product.price ≤ 0 then some "product price must be greater than zero"
  else if product.category = "" then some "product category is required"
  else if product.inventory.sku = "" then some "product SKU is required"
  else none

namespace ProductService

/-- Embeds `ProductService.CreateProduct`: validate, set defaults (fresh id,
timestamps, `active`, derived in-stock flag), persist through the repository.
`freshID` stands for `primitive.NewObjectID()`. -/
def createProduct (st : StoreState) (now : Nat) (freshID : String)
    (product : Product) : Except ServiceError Product × StoreState :=
  match validateProduct product with
  | some msg => (.error (.validation msg), st)
  | none =>
      let inv := { product.inventory with inStock := decide (product.inventory.quantity > 0) }
      let newID := if product.id = "" then freshID else product.id
      let p := { product with id := newID, createdAt := now, updatedAt := now, active := true, inventory := inv }
      let (p', st') := ProductRepository.create st now freshID p
      (.ok p', st')

/-- The field-by-field merge of `ProductService.UpdateProduct` (lines 80-118):
non-zero incoming fields overwrite the freshly read document; among the
inventory fields only the SKU is copied, quantity and reserved are left to the
dedicated inventory path. -/
def mergeProduct (existing product : Product) (now : Nat) : Product :=
  let e1 := if product.name ≠ "" then { existing with name := product.name } else existing
  let e2 := if product.description ≠ "" then { e1 with description := product.description } else e1
  let e3 := if product.price > 0 then { e2 with price := product.price } else e2
  let e4 := if product.imageURLs.length > 0 then { e3 with imageURLs := product.imageURLs } else e3
  let e5 := if product.category ≠ "" then { e4 with category := product.category } else e4
  let e6 := if product.tags.length > 0 then { e5 with tags := product.tags } else e5
  let e7 := if product.attributes.length > 0 then { e6 with attributes := product.attributes } else e6
  let e8 := if product.inventory.sku ≠ "" then
              { e7 with inventory := { e7.inventory with sku := product.inventory.sku } }
            else e7
  let e9 := { e8 with updatedAt := now }
  if product.active ≠ e9.active then { e9 with active := product.active } else e9

/-- Embeds `ProductService.UpdateProduct`: fresh read of the stored document,
field-by-field merge of the non-zero incoming fields (among inventory fields
only the SKU), then `repo.Update`. -/
def updateProduct (st : StoreState) (now : Nat) (product : Product) :
    Except ServiceError Product × StoreState :=
  match findProduct st.products product.id with
  | none => (.error (.notFound .productNotFound), st)
  | some existing =>
      let (p', st') := ProductRepository.update st now (mergeProduct existing product now)
      (.ok p', st')

/-- The fixed operation-type vocabulary of `ProductService.UpdateInventory`. -/
def validOperationTypes : List String :=
  ["purchase", "restock", "reservation", "release", "adjustment"]

/-- Embeds `ProductService.UpdateInventory` (lines 170-212): reject operation
types outside the vocabulary; for purchase/reservation with a negative delta
run the stock sufficiency pre-check against a fresh read; then delegate to the
repository coordinator. -/
def updateInventory (st : StoreState) (now : Nat) (phantomKeys : List String)
    (productID : String) (quantityChange : Int)
    (operationID operationType : String) :
    Except ServiceError InventoryInfo × StoreState :=
  if operationType ∉ validOperationTypes then
    (.error .invalidOperationType, st)
  else if (operationType = "purchase" ∨ operationType = "reservation") ∧
      quantityChange < 0 then
    match ProductRepository.checkStock st productID (-quantityChange) with
    | .error e => (.error (.stockCheck e), st)
    | .ok (available, _current) =>
        if available then
          match ProductRepository.updateInventory st now phantomKeys productID
              quantityChange operationID operationType with
          | (.error e, st') => (.error (.repository e), st')
          | (.ok inv, st') => (.ok inv, st')
        else (.error .insufficientStock, st)
  else
    match ProductRepository.updateInventory st now phantomKeys productID
        quantityChange operationID operationType with
    | (.error e, st') => (.error (.repository e), st')
    | (.ok inv, st') => (.ok inv, st')

/-- Embeds `ProductService.CheckStock`: delegate to the repository. -/
def checkStock (st : StoreState) (productID : String) (quantity : Int) :
    Except ServiceError (Bool × Int) :=
  match ProductRepository.checkStock st productID quantity with
  | .error e => .error (.repository e)
  | .ok r => .ok r

end ProductService

/-- One facade adjustment request: the argument tuple of
`ProductService.UpdateInventory`. -/
structure AdjustCall where
  productID : String
  delta : Int
  opID : String
  opType : String
deriving Repr, DecidableEq

/-- A sequence of facade adjustment calls executed back to back (sequentially,
`phantomKeys = []`).  A call that fails leaves the state untouched — the
transaction rolled back — so the fold simply threads the post-call state. -/
def runAdjustments (st : StoreState) (now : Nat) (calls : List AdjustCall) :
    StoreState :=
  calls.foldl
    (fun s c =>
      (ProductService.updateInventory s now [] c.productID c.delta c.opID c.opType).2)
    st

/-- N-fold repetition of one repository adjustment call (same argument tuple
every time), threading the committed state. -/
def adjustIter (st : StoreState) (now : Nat) (productID : String)
    (quantityChange : Int) (operationID operationType : String) : Nat → StoreState
  | 0 => st
  | n + 1 =>
      (ProductRepository.updateInventory
        (adjustIter st now productID quantityChange operationID operationType n)
        now [] productID quantityChange operationID operationType).2

/-- Per-document inventory sanity: committed quantity and reserved are
non-negative. -/
def goodInventory (p : Product) : Prop :=
  0 ≤ p.inventory.quantity ∧ 0 ≤ p.inventory.reserved

/-- Store-wide non-negativity invariant over every product document. -/
def storeNonneg (st : StoreState) : Prop :=
  ∀ p ∈ st.products, goodInventory p

/-- Concrete fixture: a snapshot with five units on hand, none reserved. -/
def sampleInventory : InventoryInfo :=
  { quantity := 5, sku := "SKU-1", inStock := true, reserved := 0 }

/-- Concrete fixture: a valid catalog document. -/
def sampleProduct : Product :=
  { id := "p1", name := "widget", description := "", price := 2,
    imageURLs := [], category := "tools", inventory := sampleInventory,
    tags := [], attributes := [], active := true, createdAt := 0, updatedAt := 0 }

/-- Concrete fixture: a store holding `sampleProduct` and an empty ledger. -/
def sampleState : StoreState :=
  { products := [sampleProduct], inventoryOperations := [] }

/-! ## Supporting lemmas about the store primitives -/

lemma findProduct_id {ps : List Product} {pid : String} {p : Product}
    (hp : findProduct ps pid = some p) : p.id = pid := by
  have h := List.find?_some hp
  simpa using h

lemma findProduct_mem {ps : List Product} {pid : String} {p : Product}
    (hp : findProduct ps pid = some p) : p ∈ ps :=
  List.mem_of_find?_eq_some hp

lemma findProduct_writeProduct_const {ps : List Product} {pid : String}
    {x : Product} (hx : x.id = pid) :
    findProduct (writeProduct ps pid (fun _ => x)) pid =
      (findProduct ps pid).map (fun _ => x) := by
  induction ps with
  | nil => rfl
  | cons p rest ih =>
      by_cases h : p.id = pid
      · simp [writeProduct, findProduct, h, hx]
      · have hb : (p.id == pid) = false := by simpa using h
        simpa [writeProduct, findProduct, hb] using ih

lemma mem_writeProduct_const {q : Product} {ps : List Product} {pid : String}
    {x : Product} (hq : q ∈ writeProduct ps pid (fun _ => x)) :
    q ∈ ps ∨ q = x := by
  induction ps with
  | nil => simp [writeProduct] at hq
  | cons p rest ih =>
      by_cases h : (p.id == pid) = true
      · rw [writeProduct, if_pos h] at hq
        rcases List.mem_cons.mp hq with h1 | h1
        · exact Or.inr h1
        · exact Or.inl (List.mem_cons_of_mem _ h1)
      · rw [writeProduct, if_neg h] at hq
        rcases List.mem_cons.mp hq with h1 | h1
        · exact Or.inl (h1 ▸ List.mem_cons_self _ _)
        · rcases ih h1 with h2 | h2
          · exact Or.inl (List.mem_cons_of_mem _ h2)
          · exact Or.inr h2

/-- What one `$inc` + flag-recompute transaction tail does when the product
exists: it rewrites the document to some `p'` whose inventory carries the
incremented quantity, the untouched sku/reserved, and the freshly derived
in-stock flag, and returns exactly that inventory. -/
lemma applyIncAndFlag_spec {st : StoreState} (now : Nat) {pid : String}
    (qc : Int) {p : Product} (hp : findProduct st.products pid = some p) :
    ∃ p', ProductRepository.applyIncAndFlag st now pid qc =
        .ok (p'.inventory,
             { st with products := writeProduct st.products pid (fun _ => p') }) ∧
      p'.id = p.id ∧
      p'.inventory.quantity = p.inventory.quantity + qc ∧
      p'.inventory.sku = p.inventory.sku ∧
      p'.inventory.reserved = p.inventory.reserved ∧
      p'.inventory.inStock = decide (p.inventory.quantity + qc > 0) := by
  unfold ProductRepository.applyIncAndFlag
  rw [hp]
  by_cases h : decide (p.inventory.quantity + qc > 0) ≠ p.inventory.inStock
  · let inv' : InventoryInfo :=
      ⟨p.inventory.quantity + qc, p.inventory.sku, decide (p.inventory.quantity + qc > 0), p.inventory.reserved⟩
    refine ⟨{ p with updatedAt := now, inventory := inv' }, ?_, rfl, rfl, rfl, rfl, rfl⟩
    simp only [if_pos h]
  · let inv' : InventoryInfo :=
      ⟨p.inventory.quantity + qc, p.inventory.sku, p.inventory.inStock, p.inventory.reserved⟩
    refine ⟨{ p with updatedAt := now, inventory := inv' }, ?_, rfl, rfl, rfl, rfl, ?_⟩
    · simp only [if_neg h]
    · exact (not_ne_iff.mp h).symm

/-- A repository adjustment with a fresh non-empty key (sequential run, no
concurrent writer) appends exactly the one ledger record and rewrites the
product to the incremented document. -/
lemma updateInventory_first {st : StoreState} (now : Nat) {pid : String}
    (qc : Int) {opID : String} (opType : String) {p : Product}
    (hkey : ¬ opID = "")
    (hled : st.inventoryOperations.find? (fun op => op.operationID == opID) = none)
    (hp : findProduct st.products pid = some p) :
    ∃ p', ProductRepository.updateInventory st now [] pid qc opID opType =
        (.ok p'.inventory,
         { products := writeProduct st.products pid (fun _ => p'),
           inventoryOperations :=
             st.inventoryOperations ++ [⟨pid, qc, opID, opType, now⟩] }) ∧
      p'.id = p.id ∧
      p'.inventory.quantity = p.inventory.quantity + qc ∧
      p'.inventory.sku = p.inventory.sku ∧
      p'.inventory.reserved = p.inventory.reserved ∧
      p'.inventory.inStock = decide (p.inventory.quantity + qc > 0) := by
  have hst1 : findProduct
      ({ st with inventoryOperations :=
          st.inventoryOperations ++ [⟨pid, qc, opID, opType, now⟩] } : StoreState).products
      pid = some p := hp
  obtain ⟨p', heq, hid, hq, hs, hr, hf⟩ := applyIncAndFlag_spec now qc hst1
  refine ⟨p', ?_, hid, hq, hs, hr, hf⟩
  unfold ProductRepository.updateInventory
  rw [if_neg hkey, hled]
  simp only [List.not_mem_nil, if_false, heq]

/-- A repository adjustment whose non-empty key is already in the ledger
aborts the write and returns the currently committed snapshot. -/
lemma updateInventory_replay {st : StoreState} {now : Nat} {ph : List String}
    {pid : String} {qc : Int} {opID opType : String}
    {entry : InventoryOperation} {p : Product}
    (hkey : ¬ opID = "")
    (hled : st.inventoryOperations.find? (fun op => op.operationID == opID) = some entry)
    (hp : findProduct st.products pid = some p) :
    ProductRepository.updateInventory st now ph pid qc opID opType =
      (.ok p.inventory, st) := by
  unfold ProductRepository.updateInventory
  rw [if_neg hkey, hled, hp]

/-- A fresh key followed by one append is found in the extended ledger, and
the filtered ledger holds exactly that record. -/
lemma ledger_after_append {l : List InventoryOperation} {opID : String}
    (hl : l.find? (fun op => op.operationID == opID) = none)
    (e : InventoryOperation) (he : e.operationID = opID) :
    (l ++ [e]).find? (fun op => op.operationID == opID) = some e ∧
    ((l ++ [e]).filter (fun op => op.operationID == opID)).length = 1 := by
  have hpe : (e.operationID == opID) = true := by simpa using he
  constructor
  · rw [List.find?_append, hl]
    simp [hpe]
  · rw [List.filter_append]
    have h2 : l.filter (fun op => op.operationID == opID) = [] :=
      List.filter_eq_nil_iff.mpr (by simpa using List.find?_eq_none.mp hl)
    rw [h2]
    simp [hpe]

/-! ## Claim theorems -/

/-- C7: for every existing product snapshot and every requestedQuantity, the
stock check (repository and service `CheckStock`) returns the pair
`(available, currentAvailable)` with `available = (quantity - reserved) >=
requestedQuantity` and `currentAvailable = quantity - reserved`; the check is
read-only (it produces no store state at all), and `currentAvailable` is
reported in the pair even when `available` is false. -/
theorem C7_checkStock_spec (st : StoreState) (pid : String) (q : Int)
    (p : Product) (hp : findProduct st.products pid = some p) :
    ProductRepository.checkStock st pid q =
      .ok (decide (p.inventory.quantity - p.inventory.reserved ≥ q),
           p.inventory.quantity - p.inventory.reserved) ∧
    ProductService.checkStock st pid q =
      .ok (decide (p.inventory.quantity - p.inventory.reserved ≥ q),
           p.inventory.quantity - p.inventory.reserved) := by
  constructor
  · unfold ProductRepository.checkStock
    rw [hp]
  · unfold ProductService.checkStock ProductRepository.checkStock
    rw [hp]

/-- Witness for C7 at the sample store: 5 on hand, 0 reserved, asking for 3. -/
theorem C7_checkStock_spec_witness :
    ProductRepository.checkStock sampleState "p1" 3 =
      .ok (decide (sampleProduct.inventory.quantity -
                     sampleProduct.inventory.reserved ≥ 3),
           sampleProduct.inventory.quantity - sampleProduct.inventory.reserved) ∧
    ProductService.checkStock sampleState "p1" 3 =
      .ok (decide (sampleProduct.inventory.quantity -
                     sampleProduct.inventory.reserved ≥ 3),
           sampleProduct.inventory.quantity - sampleProduct.inventory.reserved) :=
  C7_checkStock_spec sampleState "p1" 3 sampleProduct (by decide)

/-- C8: an operation type outside the fixed vocabulary makes the facade fail
with the invalid-operation error before any stock check, ledger write or
quantity mutation (the returned state is exactly the input state); an
operation type inside the vocabulary never produces that error. -/
theorem C8_operation_type_gate (st : StoreState) (now : Nat)
    (ph : List String) (pid : String) (qc : Int) (opID opType : String) :
    (opType ∉ ProductService.validOperationTypes →
      ProductService.updateInventory st now ph pid qc opID opType =
        (.error .invalidOperationType, st)) ∧
    (opType ∈ ProductService.validOperationTypes →
      (ProductService.updateInventory st now ph pid qc opID opType).1 ≠
        .error .invalidOperationType) := by
  constructor
  · intro h
    unfold ProductService.updateInventory
    rw [if_pos h]
  · intro h
    unfold ProductService.updateInventory
    rw [if_neg (not_not_intro h)]
    split
    · split
      · simp
      · split
        · split <;> simp
        · simp
    · split <;> simp

/-- Witness for C8: the vocabulary gate on a rejected type `frobnicate` and an
accepted type `restock` at the sample store. -/
theorem C8_operation_type_gate_witness :
    ProductService.updateInventory sampleState 1 [] "p1" 5 "k" "frobnicate" =
      (.error .invalidOperationType, sampleState) ∧
    (ProductService.updateInventory sampleState 1 [] "p1" 5 "k" "restock").1 ≠
      .error .invalidOperationType :=
  ⟨(C8_operation_type_gate sampleState 1 [] "p1" 5 "k" "frobnicate").1 (by decide),
   (C8_operation_type_gate sampleState 1 [] "p1" 5 "k" "restock").2 (by decide)⟩

/-- The validation helper passes exactly when name, category and SKU are
non-empty and the price is positive. -/
lemma validateProduct_none_iff (p : Product) :
    validateProduct p = none ↔
      (p.name ≠ "" ∧ p.price > 0 ∧ p.category ≠ "" ∧ p.inventory.sku ≠ "") := by
  unfold validateProduct
  split_ifs with h1 h2 h3 h4
  · exact iff_of_false (by simp) (fun hc => hc.1 h1)
  · exact iff_of_false (by simp) (fun hc => absurd hc.2.1 (not_lt.mpr h2))
  · exact iff_of_false (by simp) (fun hc => hc.2.2.1 h3)
  · exact iff_of_false (by simp) (fun hc => hc.2.2.2 h4)
  · exact iff_of_true rfl ⟨h1, not_le.mp h2, h3, h4⟩

/-- C9: product creation succeeds only when name, category and SKU are
non-empty and the price is positive; when any of these fails, `CreateProduct`
returns a validation error and the store is exactly the input store (nothing
persisted). -/
theorem C9_create_validation_gate (st : StoreState) (now : Nat)
    (fid : String) (p : Product) :
    ((ProductService.createProduct st now fid p).1.isOk = true →
      p.name ≠ "" ∧ p.price > 0 ∧ p.category ≠ "" ∧ p.inventory.sku ≠ "") ∧
    ((p.name = "" ∨ p.price ≤ 0 ∨ p.category = "" ∨ p.inventory.sku = "") →
      ∃ msg, ProductService.createProduct st now fid p =
        (.error (.validation msg), st)) := by
  constructor
  · intro h
    cases hval : validateProduct p with
    | some msg =>
        exfalso
        unfold ProductService.createProduct at h
        rw [hval] at h
        exact Bool.noConfusion h
    | none => exact (validateProduct_none_iff p).mp hval
  · intro h
    cases hval : validateProduct p with
    | some msg =>
        refine ⟨msg, ?_⟩
        unfold ProductService.createProduct
        rw [hval]
    | none =>
        obtain ⟨h1, h2, h3, h4⟩ := (validateProduct_none_iff p).mp hval
        rcases h with h | h | h | h
        · exact absurd h h1
        · exact absurd h (not_le.mpr h2)
        · exact absurd h h3
        · exact absurd h h4

/-- Witness for C9: creating the valid sample product succeeds, and creating a
copy with an empty name fails with a validation error, leaving the store
untouched. -/
theorem C9_create_validation_gate_witness :
    ((ProductService.createProduct sampleState 1 "fresh" sampleProduct).1.isOk = true →
      sampleProduct.name ≠ "" ∧ sampleProduct.price > 0 ∧
      sampleProduct.category ≠ "" ∧ sampleProduct.inventory.sku ≠ "") ∧
    ∃ msg, ProductService.createProduct sampleState 1 "fresh"
        { sampleProduct with name := "" } =
      (.error (.validation msg), sampleState) :=
  ⟨(C9_create_validation_gate sampleState 1 "fresh" sampleProduct).1,
   (C9_create_validation_gate sampleState 1 "fresh"
      { sampleProduct with name := "" }).2 (Or.inl rfl)⟩

/-- C4: a facade call with operation type purchase or reservation and a
negative delta is gated by the sufficiency pre-check on a freshly read
snapshot.  When `quantity - reserved < -delta` the call fails with the
insufficient-stock error and the store is exactly the input store (the
coordinator is never reached, no ledger record, no mutation); otherwise the
call is delegated to the repository coordinator and its result is returned,
with repository errors wrapped. -/
theorem C4_precheck_gate (st : StoreState) (now : Nat) (ph : List String)
    (pid : String) (qc : Int) (opID opType : String) (p : Product)
    (hop : opType = "purchase" ∨ opType = "reservation") (hqc : qc < 0)
    (hp : findProduct st.products pid = some p) :
    (p.inventory.quantity - p.inventory.reserved < -qc →
      ProductService.updateInventory st now ph pid qc opID opType =
        (.error .insufficientStock, st)) ∧
    (p.inventory.quantity - p.inventory.reserved ≥ -qc →
      ProductService.updateInventory st now ph pid qc opID opType =
        (match ProductRepository.updateInventory st now ph pid qc opID opType with
         | (.error e, st') => (.error (.repository e), st')
         | (.ok inv, st') => (.ok inv, st'))) := by
  have hin : opType ∈ ProductService.validOperationTypes := by
    rcases hop with h | h <;> subst h <;> decide
  have hcs : ProductRepository.checkStock st pid (-qc) =
      .ok (decide (p.inventory.quantity - p.inventory.reserved ≥ -qc),
           p.inventory.quantity - p.inventory.reserved) := by
    unfold ProductRepository.checkStock
    rw [hp]
  constructor
  · intro hlt
    unfold ProductService.updateInventory
    rw [if_neg (not_not_intro hin), if_pos ⟨hop, hqc⟩, hcs]
    have hdec : decide (p.inventory.quantity - p.inventory.reserved ≥ -qc) = false :=
      decide_eq_false (not_le.mpr hlt)
    rw [hdec]
    rfl
  · intro hge
    unfold ProductService.updateInventory
    rw [if_neg (not_not_intro hin), if_pos ⟨hop, hqc⟩, hcs]
    have hdec : decide (p.inventory.quantity - p.inventory.reserved ≥ -qc) = true :=
      decide_eq_true hge
    rw [hdec]
    rfl

/-- Witness for C4 at the sample store (5 on hand): a purchase of 9 is
rejected with insufficient stock leaving the store untouched, and a purchase
of 2 is delegated to the coordinator. -/
theorem C4_precheck_gate_witness :
    (sampleProduct.inventory.quantity - sampleProduct.inventory.reserved < -(-9 : Int) →
      ProductService.updateInventory sampleState 1 [] "p1" (-9) "op9" "purchase" =
        (.error .insufficientStock, sampleState)) ∧
    ((sampleProduct.inventory.quantity - sampleProduct.inventory.reserved ≥ -(-2 : Int) →
      ProductService.updateInventory sampleState 1 [] "p1" (-2) "op2" "purchase" =
        (match ProductRepository.updateInventory sampleState 1 [] "p1" (-2) "op2" "purchase" with
         | (.error e, st') => (.error (.repository e), st')
         | (.ok inv, st') => (.ok inv, st')))) :=
  ⟨(C4_precheck_gate sampleState 1 [] "p1" (-9) "op9" "purchase" sampleProduct
      (Or.inl rfl) (by decide) (by decide)).1,
   (C4_precheck_gate sampleState 1 [] "p1" (-2) "op2" "purchase" sampleProduct
      (Or.inl rfl) (by decide) (by decide)).2⟩

/-- C6 counterexample: the key `op1` was already committed by a concurrent
transaction (it is in `phantomKeys`, enforcing the uniqueness constraint) but
is not in this transaction's snapshot of the ledger, so the `InsertOne` fails
with a duplicate-key error.  The code propagates that error — the call does
NOT return the committed snapshot, contradicting the claim that a uniqueness
violation is treated as `AlreadyApplied`. -/
theorem C6_counterexample :
    ProductRepository.updateInventory sampleState 1 ["op1"] "p1" (-5) "op1" "purchase" =
      (.error .duplicateKey, sampleState) ∧
    (ProductRepository.updateInventory sampleState 1 ["op1"] "p1" (-5) "op1" "purchase").1.isOk
      = false := by
  constructor
  · rfl
  · rfl

/-- C6 amended: when the ledger insert for a non-empty fresh key hits the
uniqueness violation (the key was committed concurrently), the transaction
aborts — no inventory write, no ledger record — and the duplicate-key error is
propagated to the caller instead of being converted into an
`AlreadyApplied` success with the committed snapshot. -/
theorem C6_amended_duplicate_propagates (st : StoreState) (now : Nat)
    (ph : List String) (pid : String) (qc : Int) (opID opType : String)
    (hkey : ¬ opID = "")
    (hled : st.inventoryOperations.find? (fun op => op.operationID == opID) = none)
    (hph : opID ∈ ph) :
    ProductRepository.updateInventory st now ph pid qc opID opType =
      (.error .duplicateKey, st) := by
  unfold ProductRepository.updateInventory
  rw [if_neg hkey, hled, if_pos hph]

/-- Witness for the amended C6 at the sample store. -/
theorem C6_amended_duplicate_propagates_witness :
    ProductRepository.updateInventory sampleState 1 ["op1"] "p1" (-5) "op1" "restock" =
      (.error .duplicateKey, sampleState) :=
  C6_amended_duplicate_propagates sampleState 1 ["op1"] "p1" (-5) "op1" "restock"
    (by decide) rfl (by decide)

/-- The increment + flag recompute writes only to the products collection:
the ledger of its output state is the ledger of its input state. -/
lemma applyIncAndFlag_ledger {st : StoreState} {now : Nat} {pid : String}
    {qc : Int} {inv : InventoryInfo} {st' : StoreState}
    (h : ProductRepository.applyIncAndFlag st now pid qc = .ok (inv, st')) :
    st'.inventoryOperations = st.inventoryOperations := by
  cases hfp : findProduct st.products pid with
  | none =>
      unfold ProductRepository.applyIncAndFlag at h
      rw [hfp] at h
      exact Except.noConfusion h
  | some p =>
      obtain ⟨p', heq, -, -, -, -, -⟩ :=
        applyIncAndFlag_spec now qc hfp
      rw [heq] at h
      simp only [Except.ok.injEq, Prod.mk.injEq] at h
      obtain ⟨-, h2⟩ := h
      rw [← h2]

/-- C5 counterexample: an adjustment submitted with an empty idempotency key
succeeds (the delta is applied) but inserts NO ledger record at all — the Go
code skips the whole `inventory_operations` block when `operationID == ""`,
so the "Recorded implies one LedgerEntry per submission" reading of the claim
fails for empty keys. -/
theorem C5_counterexample :
    (ProductRepository.updateInventory sampleState 1 [] "p1" 5 "" "restock").1.isOk
      = true ∧
    (ProductRepository.updateInventory sampleState 1 [] "p1" 5 "" "restock").2.inventoryOperations
      = [] :=
  ⟨rfl, rfl⟩

/-- C5 amended: a committed adjustment with a non-empty fresh key inserts
exactly one LedgerEntry; a call with an empty key bypasses the ledger entirely
(no record inserted) while still applying the delta on every submission (two
back-to-back empty-key calls increment twice). -/
theorem C5_amended_ledger_effects :
    (∀ (st : StoreState) (now : Nat) (ph : List String) (pid : String)
        (qc : Int) (opID opType : String) (inv : InventoryInfo) (st' : StoreState),
      ¬ opID = "" →
      st.inventoryOperations.find? (fun op => op.operationID == opID) = none →
      ProductRepository.updateInventory st now ph pid qc opID opType = (.ok inv, st') →
      st'.inventoryOperations =
        st.inventoryOperations ++ [⟨pid, qc, opID, opType, now⟩]) ∧
    (∀ (st : StoreState) (now : Nat) (ph : List String) (pid : String)
        (qc : Int) (opType : String),
      (ProductRepository.updateInventory st now ph pid qc "" opType).2.inventoryOperations =
        st.inventoryOperations) ∧
    (∀ (st : StoreState) (now : Nat) (ph : List String) (pid : String)
        (qc : Int) (opType : String) (p : Product),
      findProduct st.products pid = some p →
      ∃ inv1 st1 inv2 st2,
        ProductRepository.updateInventory st now ph pid qc "" opType = (.ok inv1, st1) ∧
        inv1.quantity = p.inventory.quantity + qc ∧
        ProductRepository.updateInventory st1 now ph pid qc "" opType = (.ok inv2, st2) ∧
        inv2.quantity = p.inventory.quantity + qc + qc) := by
  refine ⟨?_, ?_, ?_⟩
  · intro st now ph pid qc opID opType inv st' hkey hled hok
    unfold ProductRepository.updateInventory at hok
    rw [if_neg hkey, hled] at hok
    by_cases hph : opID ∈ ph
    · rw [if_pos hph] at hok
      simp at hok
    · rw [if_neg hph] at hok
      simp only [] at hok
      cases heq : ProductRepository.applyIncAndFlag
          { st with inventoryOperations :=
              st.inventoryOperations ++ [⟨pid, qc, opID, opType, now⟩] }
          now pid qc with
      | error e =>
          rw [heq] at hok
          simp at hok
      | ok r =>
          obtain ⟨inv0, st0⟩ := r
          rw [heq] at hok
          simp only [Prod.mk.injEq, Except.ok.injEq] at hok
          obtain ⟨-, h2⟩ := hok
          rw [← h2]
          exact applyIncAndFlag_ledger heq
  · intro st now ph pid qc opType
    unfold ProductRepository.updateInventory
    rw [if_pos rfl]
    cases heq : ProductRepository.applyIncAndFlag st now pid qc with
    | error e => rfl
    | ok r =>
        obtain ⟨inv0, st0⟩ := r
        simp only []
        exact applyIncAndFlag_ledger heq
  · intro st now ph pid qc opType p hp
    obtain ⟨p', heq1, hid1, hq1, -, -, -⟩ :=
      applyIncAndFlag_spec now qc hp
    have hok1 : ProductRepository.updateInventory st now ph pid qc "" opType =
        (.ok p'.inventory,
         { st with products := writeProduct st.products pid (fun _ => p') }) := by
      unfold ProductRepository.updateInventory
      rw [if_pos rfl, heq1]
    have hfind1 : findProduct
        ({ st with products := writeProduct st.products pid (fun _ => p') } : StoreState).products
        pid = some p' := by
      show findProduct (writeProduct st.products pid (fun _ => p')) pid = some p'
      rw [findProduct_writeProduct_const (hid1.trans (findProduct_id hp)), hp]
      rfl
    obtain ⟨p'', heq2, hid2, hq2, -, -, -⟩ :=
      applyIncAndFlag_spec now qc hfind1
    have hok2 : ProductRepository.updateInventory
        { st with products := writeProduct st.products pid (fun _ => p') }
        now ph pid qc "" opType =
        (.ok p''.inventory,
         { st with products :=
             writeProduct (writeProduct st.products pid (fun _ => p')) pid (fun _ => p'') }) := by
      unfold ProductRepository.updateInventory
      rw [if_pos rfl, heq2]
    refine ⟨p'.inventory, _, p''.inventory, _, hok1, hq1, hok2, ?_⟩
    rw [hq2, hq1]

/-- Witness for the amended C5 at the sample store: a fresh keyed restock of 5
appends exactly its ledger record; empty-key restocks leave the ledger empty
and stack their deltas (5 then 10). -/
theorem C5_amended_ledger_effects_witness :
    ({ products := [{ sampleProduct with updatedAt := 1, inventory := ⟨10, "SKU-1", true, 0⟩ }],
       inventoryOperations := [⟨"p1", 5, "op1", "restock", 1⟩] } : StoreState).inventoryOperations =
      sampleState.inventoryOperations ++ [⟨"p1", 5, "op1", "restock", 1⟩] ∧
    (ProductRepository.updateInventory sampleState 1 [] "p1" 5 "" "restock").2.inventoryOperations =
      sampleState.inventoryOperations ∧
    (∃ inv1 st1 inv2 st2,
      ProductRepository.updateInventory sampleState 1 [] "p1" 5 "" "restock" = (.ok inv1, st1) ∧
      inv1.quantity = sampleProduct.inventory.quantity + 5 ∧
      ProductRepository.updateInventory st1 1 [] "p1" 5 "" "restock" = (.ok inv2, st2) ∧
      inv2.quantity = sampleProduct.inventory.quantity + 5 + 5) :=
  ⟨C5_amended_ledger_effects.1 sampleState 1 [] "p1" 5 "op1" "restock"
      ⟨10, "SKU-1", true, 0⟩ _ (by decide) rfl rfl,
   C5_amended_ledger_effects.2.1 sampleState 1 [] "p1" 5 "restock",
   C5_amended_ledger_effects.2.2 sampleState 1 [] "p1" 5 "restock" sampleProduct rfl⟩

/-- The field merge of `UpdateProduct` keeps the stored document's id,
quantity, reserved and in-stock flag; among inventory fields it copies at most
the SKU from the incoming document. -/
lemma mergeProduct_spec (ex q : Product) (now : Nat) :
    (ProductService.mergeProduct ex q now).id = ex.id ∧
    (ProductService.mergeProduct ex q now).inventory.quantity = ex.inventory.quantity ∧
    (ProductService.mergeProduct ex q now).inventory.reserved = ex.inventory.reserved ∧
    ((ProductService.mergeProduct ex q now).inventory.sku = q.inventory.sku ∨
     (ProductService.mergeProduct ex q now).inventory.sku = ex.inventory.sku) := by
  refine ⟨?_, ?_, ?_, ?_⟩
  · simp [ProductService.mergeProduct, apply_ite Product.id, ite_self]
  · simp [ProductService.mergeProduct, apply_ite Product.inventory,
      apply_ite InventoryInfo.quantity, ite_self]
  · simp [ProductService.mergeProduct, apply_ite Product.inventory,
      apply_ite InventoryInfo.reserved, ite_self]
  · simp only [ProductService.mergeProduct, apply_ite Product.inventory,
      apply_ite InventoryInfo.sku, ite_self]
    split_ifs <;> simp

/-- Canonical form of one repository `Update`: the stored and returned document
is the input document with refreshed `updated_at` and re-derived in-stock flag;
quantity, reserved and sku pass through unchanged. -/
lemma update_spec (st : StoreState) (now : Nat) (m : Product) :
    ∃ pN, ProductRepository.update st now m =
        (pN, { st with products := writeProduct st.products m.id (fun _ => pN) }) ∧
      pN.id = m.id ∧
      pN.inventory.quantity = m.inventory.quantity ∧
      pN.inventory.reserved = m.inventory.reserved ∧
      pN.inventory.sku = m.inventory.sku ∧
      pN.inventory.inStock = decide (m.inventory.quantity > 0) :=
  ⟨_, rfl, rfl, rfl, rfl, rfl, rfl⟩

/-- C10: a successful `UpdateProduct` leaves quantity and reserved exactly as
in the freshly read stored document; among inventory fields only the SKU may
change (taken from the incoming document or kept); the in-stock flag is the
value derived from the unchanged quantity; and the stored document equals the
returned one. -/
theorem C10_update_inventory_frame (st : StoreState) (now : Nat)
    (q p' : Product) (st' : StoreState) (ex : Product)
    (hex : findProduct st.products q.id = some ex)
    (hok : ProductService.updateProduct st now q = (.ok p', st')) :
    p'.inventory.quantity = ex.inventory.quantity ∧
    p'.inventory.reserved = ex.inventory.reserved ∧
    p'.inventory.inStock = decide (ex.inventory.quantity > 0) ∧
    (p'.inventory.sku = q.inventory.sku ∨ p'.inventory.sku = ex.inventory.sku) ∧
    findProduct st'.products q.id = some p' := by
  obtain ⟨hid, hq, hr, hsku⟩ := mergeProduct_spec ex q now
  obtain ⟨pN, hupd, hidN, hqN, hrN, hsN, hfN⟩ :=
    update_spec st now (ProductService.mergeProduct ex q now)
  unfold ProductService.updateProduct at hok
  rw [hex] at hok
  simp only [] at hok
  rw [hupd] at hok
  simp only [Prod.mk.injEq, Except.ok.injEq] at hok
  obtain ⟨hp', hst'⟩ := hok
  subst hp'
  subst hst'
  have hmid : (ProductService.mergeProduct ex q now).id = q.id :=
    hid.trans (findProduct_id hex)
  refine ⟨hqN.trans hq, hrN.trans hr, ?_, ?_, ?_⟩
  · rw [hfN, hq]
  · rcases hsku with h | h
    · exact Or.inl (hsN.trans h)
    · exact Or.inr (hsN.trans h)
  · show findProduct
      (writeProduct st.products (ProductService.mergeProduct ex q now).id (fun _ => pN))
      q.id = some pN
    rw [hmid, findProduct_writeProduct_const (hidN.trans hmid), hex]
    rfl

/-- Witness for C10: renaming the sample product (incoming document carries
the same SKU and no other inventory intent) keeps quantity 5, reserved 0 and
the derived flag, and stores exactly the returned document. -/
theorem C10_update_inventory_frame_witness :
    ({ sampleProduct with name := "gadget", updatedAt := 2 } : Product).inventory.quantity =
      sampleProduct.inventory.quantity ∧
    ({ sampleProduct with name := "gadget", updatedAt := 2 } : Product).inventory.reserved =
      sampleProduct.inventory.reserved ∧
    ({ sampleProduct with name := "gadget", updatedAt := 2 } : Product).inventory.inStock =
      decide (sampleProduct.inventory.quantity > 0) ∧
    (({ sampleProduct with name := "gadget", updatedAt := 2 } : Product).inventory.sku =
       ({ sampleProduct with name := "gadget", updatedAt := 0 } : Product).inventory.sku ∨
     ({ sampleProduct with name := "gadget", updatedAt := 2 } : Product).inventory.sku =
       sampleProduct.inventory.sku) ∧
    findProduct
      ({ products := [{ sampleProduct with name := "gadget", updatedAt := 2 }],
         inventoryOperations := [] } : StoreState).products
      ({ sampleProduct with name := "gadget", updatedAt := 0 } : Product).id =
      some { sampleProduct with name := "gadget", updatedAt := 2 } :=
  C10_update_inventory_frame sampleState 2
    { sampleProduct with name := "gadget", updatedAt := 0 }
    { sampleProduct with name := "gadget", updatedAt := 2 }
    { products := [{ sampleProduct with name := "gadget", updatedAt := 2 }],
      inventoryOperations := [] }
    sampleProduct rfl rfl

/-- Canonical form of one repository `Create`: the inserted (and returned)
document carries the caller's quantity and the freshly derived in-stock
flag. -/
lemma create_spec (st : StoreState) (now : Nat) (fid : String) (q : Product) :
    ∃ p2, ProductRepository.create st now fid q =
        (p2, { st with products := st.products ++ [p2] }) ∧
      p2.inventory.quantity = q.inventory.quantity ∧
      p2.inventory.inStock = decide (q.inventory.quantity > 0) := by
  refine ⟨_, rfl, ?_, ?_⟩
  · simp [ProductRepository.create, apply_ite Product.inventory,
      apply_ite InventoryInfo.quantity, ite_self]
  · simp [ProductRepository.create, apply_ite Product.inventory,
      apply_ite InventoryInfo.quantity, ite_self]

/-- A facade adjustment that returns a committed snapshot did so by running
the repository coordinator on the same arguments with the same outcome. -/
lemma service_ok_repo {st : StoreState} {now : Nat} {ph : List String}
    {pid : String} {qc : Int} {opID opType : String}
    {inv : InventoryInfo} {st' : StoreState}
    (hok : ProductService.updateInventory st now ph pid qc opID opType =
      (.ok inv, st')) :
    ProductRepository.updateInventory st now ph pid qc opID opType =
      (.ok inv, st') := by
  unfold ProductService.updateInventory at hok
  by_cases h1 : opType ∉ ProductService.validOperationTypes
  · rw [if_pos h1] at hok
    exact absurd hok (by simp)
  · rw [if_neg h1] at hok
    split at hok
    · split at hok
      · exact absurd hok (by simp)
      · split at hok
        · split at hok
          · exact absurd hok (by simp)
          · rename_i heq
            simp only [Prod.mk.injEq, Except.ok.injEq] at hok
            obtain ⟨h2, h3⟩ := hok
            subst h2
            subst h3
            exact heq
        · exact absurd hok (by simp)
    · split at hok
      · exact absurd hok (by simp)
      · rename_i heq
        simp only [Prod.mk.injEq, Except.ok.injEq] at hok
        obtain ⟨h2, h3⟩ := hok
        subst h2
        subst h3
        exact heq

/-- Any committed adjustment outcome that actually went through the increment
path (empty key, or a key the ledger had not seen) returns an inventory whose
in-stock flag equals the freshly derived `quantity > 0`, and stores exactly
that inventory on the product. -/
lemma repo_novel_invariant {st : StoreState} {now : Nat} {ph : List String}
    {pid : String} {qc : Int} {opID opType : String}
    {inv : InventoryInfo} {st' : StoreState}
    (hnov : opID = "" ∨
      st.inventoryOperations.find? (fun op => op.operationID == opID) = none)
    (hok : ProductRepository.updateInventory st now ph pid qc opID opType =
      (.ok inv, st')) :
    inv.inStock = decide (inv.quantity > 0) ∧
    ∃ w, findProduct st'.products pid = some w ∧ w.inventory = inv := by
  by_cases hkey : opID = ""
  · unfold ProductRepository.updateInventory at hok
    rw [if_pos hkey] at hok
    cases hfp : findProduct st.products pid with
    | none =>
        unfold ProductRepository.applyIncAndFlag at hok
        rw [hfp] at hok
        simp at hok
    | some p =>
        obtain ⟨p', heq, hid, hq, hs, hr, hf⟩ :=
          applyIncAndFlag_spec now qc hfp
        rw [heq] at hok
        simp only [Prod.mk.injEq, Except.ok.injEq] at hok
        obtain ⟨h2, h3⟩ := hok
        subst h2
        subst h3
        refine ⟨by rw [hf, hq], p', ?_, rfl⟩
        show findProduct (writeProduct st.products pid (fun _ => p')) pid = some p'
        rw [findProduct_writeProduct_const (hid.trans (findProduct_id hfp)), hfp]
        rfl
  · have hled := hnov.resolve_left hkey
    unfold ProductRepository.updateInventory at hok
    rw [if_neg hkey, hled] at hok
    by_cases hph : opID ∈ ph
    · rw [if_pos hph] at hok
      simp at hok
    · rw [if_neg hph] at hok
      simp only [] at hok
      cases hfp : findProduct st.products pid with
      | none =>
          unfold ProductRepository.applyIncAndFlag at hok
          rw [hfp] at hok
          simp at hok
      | some p =>
          have hfp1 : findProduct
              ({ st with inventoryOperations :=
                  st.inventoryOperations ++ [⟨pid, qc, opID, opType, now⟩] } : StoreState).products
              pid = some p := hfp
          obtain ⟨p', heq, hid, hq, hs, hr, hf⟩ :=
            applyIncAndFlag_spec now qc hfp1
          rw [heq] at hok
          simp only [Prod.mk.injEq, Except.ok.injEq] at hok
          obtain ⟨h2, h3⟩ := hok
          subst h2
          subst h3
          refine ⟨by rw [hf, hq], p', ?_, rfl⟩
          show findProduct (writeProduct st.products pid (fun _ => p')) pid = some p'
          rw [findProduct_writeProduct_const (hid.trans (findProduct_id hfp)), hfp]
          rfl

/-- C3: after every operation that creates a product or commits a quantity
change — `CreateProduct`, `UpdateProduct`, and `UpdateInventory` along its
increment path (empty key or a key the ledger had not recorded) — the
committed snapshot satisfies `inStock = (quantity > 0)`, recomputed inside
the same operation; the stored document carries exactly the returned
snapshot. -/
theorem C3_instock_derived :
    (∀ (st : StoreState) (now : Nat) (fid : String) (q p' : Product)
        (st' : StoreState),
      ProductService.createProduct st now fid q = (.ok p', st') →
      p'.inventory.inStock = decide (p'.inventory.quantity > 0) ∧
      st'.products = st.products ++ [p']) ∧
    (∀ (st : StoreState) (now : Nat) (q p' : Product) (st' : StoreState),
      ProductService.updateProduct st now q = (.ok p', st') →
      p'.inventory.inStock = decide (p'.inventory.quantity > 0) ∧
      findProduct st'.products p'.id = some p') ∧
    (∀ (st : StoreState) (now : Nat) (ph : List String) (pid : String)
        (qc : Int) (opID opType : String) (inv : InventoryInfo) (st' : StoreState),
      (opID = "" ∨
        st.inventoryOperations.find? (fun op => op.operationID == opID) = none) →
      ProductService.updateInventory st now ph pid qc opID opType = (.ok inv, st') →
      inv.inStock = decide (inv.quantity > 0) ∧
      ∃ w, findProduct st'.products pid = some w ∧ w.inventory = inv) := by
  refine ⟨?_, ?_, ?_⟩
  · intro st now fid q p' st' h
    unfold ProductService.createProduct at h
    cases hval : validateProduct q with
    | some msg =>
        rw [hval] at h
        exact absurd h (by simp)
    | none =>
        rw [hval] at h
        simp only [] at h
        obtain ⟨p2, hcr, hq2, hf2⟩ := create_spec st now fid
          { q with id := if q.id = "" then fid else q.id,
                   createdAt := now, updatedAt := now, active := true,
                   inventory :=
                     { q.inventory with inStock := decide (q.inventory.quantity > 0) } }
        rw [hcr] at h
        simp only [Prod.mk.injEq, Except.ok.injEq] at h
        obtain ⟨h1, h2⟩ := h
        subst h1
        subst h2
        exact ⟨by rw [hf2, hq2], rfl⟩
  · intro st now q p' st' h
    unfold ProductService.updateProduct at h
    cases hex : findProduct st.products q.id with
    | none =>
        rw [hex] at h
        exact absurd h (by simp)
    | some ex =>
        rw [hex] at h
        simp only [] at h
        obtain ⟨hid, hq, hr, hsku⟩ := mergeProduct_spec ex q now
        obtain ⟨pN, hupd, hidN, hqN, hrN, hsN, hfN⟩ :=
          update_spec st now (ProductService.mergeProduct ex q now)
        rw [hupd] at h
        simp only [Prod.mk.injEq, Except.ok.injEq] at h
        obtain ⟨h1, h2⟩ := h
        subst h1
        subst h2
        refine ⟨by rw [hfN, hqN], ?_⟩
        rw [hidN, findProduct_writeProduct_const hidN,
          hid.trans (findProduct_id hex), hex]
        rfl
  · intro st now ph pid qc opID opType inv st' hnov h
    exact repo_novel_invariant hnov (service_ok_repo h)

/-- Witness for C3: a fresh creation, a rename update, and a keyed restock at
the sample store all leave the derived flag equal to `quantity > 0`. -/
theorem C3_instock_derived_witness :
    (({ sampleProduct with createdAt := 3, updatedAt := 3 } : Product).inventory.inStock =
        decide (({ sampleProduct with createdAt := 3, updatedAt := 3 } : Product).inventory.quantity > 0) ∧
      ({ products := [sampleProduct, { sampleProduct with createdAt := 3, updatedAt := 3 }],
         inventoryOperations := [] } : StoreState).products =
        sampleState.products ++ [{ sampleProduct with createdAt := 3, updatedAt := 3 }]) ∧
    (({ sampleProduct with name := "gadget", updatedAt := 2 } : Product).inventory.inStock =
        decide (({ sampleProduct with name := "gadget", updatedAt := 2 } : Product).inventory.quantity > 0) ∧
      findProduct
        ({ products := [{ sampleProduct with name := "gadget", updatedAt := 2 }],
           inventoryOperations := [] } : StoreState).products
        ({ sampleProduct with name := "gadget", updatedAt := 2 } : Product).id =
        some { sampleProduct with name := "gadget", updatedAt := 2 }) ∧
    ((⟨10, "SKU-1", true, 0⟩ : InventoryInfo).inStock =
        decide ((⟨10, "SKU-1", true, 0⟩ : InventoryInfo).quantity > 0) ∧
      ∃ w, findProduct
          ({ products := [{ sampleProduct with updatedAt := 1, inventory := ⟨10, "SKU-1", true, 0⟩ }],
             inventoryOperations := [⟨"p1", 5, "op1", "restock", 1⟩] } : StoreState).products
          "p1" = some w ∧ w.inventory = ⟨10, "SKU-1", true, 0⟩) :=
  ⟨C3_instock_derived.1 sampleState 3 "fresh2" sampleProduct
      { sampleProduct with createdAt := 3, updatedAt := 3 }
      { products := [sampleProduct, { sampleProduct with createdAt := 3, updatedAt := 3 }],
        inventoryOperations := [] } rfl,
   C3_instock_derived.2.1 sampleState 2
      { sampleProduct with name := "gadget", updatedAt := 0 }
      { sampleProduct with name := "gadget", updatedAt := 2 }
      { products := [{ sampleProduct with name := "gadget", updatedAt := 2 }],
        inventoryOperations := [] } rfl,
   C3_instock_derived.2.2 sampleState 1 [] "p1" 5 "op1" "restock"
      ⟨10, "SKU-1", true, 0⟩
      { products := [{ sampleProduct with updatedAt := 1, inventory := ⟨10, "SKU-1", true, 0⟩ }],
        inventoryOperations := [⟨"p1", 5, "op1", "restock", 1⟩] }
      (Or.inr rfl) rfl⟩

/-- C1 counterexample at the facade: with 5 on hand, the purchase of 5 under
key `op1` commits and returns the snapshot with quantity 0; repeating the
identical call re-runs the sufficiency pre-check against the new state
(0 available, 5 requested) and fails with the insufficient-stock error instead
of returning the committed snapshot — so the claim, which covers the service
`UpdateInventory`, fails: a repeated call does not return the same committed
snapshot as the first. -/
theorem C1_counterexample :
    (ProductService.updateInventory sampleState 1 [] "p1" (-5) "op1" "purchase").1 =
      .ok ⟨0, "SKU-1", false, 0⟩ ∧
    (ProductService.updateInventory
        (ProductService.updateInventory sampleState 1 [] "p1" (-5) "op1" "purchase").2
        2 [] "p1" (-5) "op1" "purchase").1 = .error .insufficientStock :=
  ⟨rfl, rfl⟩

/-- C1 amended: the idempotence property holds of the repository coordinator
(`ProductRepository.UpdateInventory`, the spec's `adjust`): for a fixed tuple
with a non-empty fresh key, N calls (N ≥ 1) change the quantity by exactly
delta in total, create exactly one ledger record for the key, and every call
after the first — from the committed state, under any concurrent phantom
keys — returns the same committed snapshot as the first.  (At the service
facade the property fails when the repeat no longer passes the stock
pre-check, as the counterexample shows.) -/
theorem C1_amended_repo_idempotence (st : StoreState) (now : Nat)
    (pid : String) (qc : Int) (opID opType : String) (p : Product)
    (hkey : ¬ opID = "")
    (hled : st.inventoryOperations.find? (fun op => op.operationID == opID) = none)
    (hp : findProduct st.products pid = some p)
    (N : Nat) (hN : 1 ≤ N) :
    ∃ inv st1,
      ProductRepository.updateInventory st now [] pid qc opID opType = (.ok inv, st1) ∧
      (∃ w, findProduct st1.products pid = some w ∧ w.inventory = inv) ∧
      inv.quantity = p.inventory.quantity + qc ∧
      (st1.inventoryOperations.filter (fun op => op.operationID == opID)).length = 1 ∧
      adjustIter st now pid qc opID opType N = st1 ∧
      (∀ ph, ProductRepository.updateInventory st1 now ph pid qc opID opType =
        (.ok inv, st1)) := by
  obtain ⟨p', heq, hid, hq, hs, hr, hf⟩ :=
    updateInventory_first now qc opType hkey hled hp
  have hid' : p'.id = pid := hid.trans (findProduct_id hp)
  have hfind1 : findProduct
      ({ products := writeProduct st.products pid (fun _ => p'),
         inventoryOperations :=
           st.inventoryOperations ++ [⟨pid, qc, opID, opType, now⟩] } : StoreState).products
      pid = some p' := by
    show findProduct (writeProduct st.products pid (fun _ => p')) pid = some p'
    rw [findProduct_writeProduct_const hid', hp]
    rfl
  obtain ⟨hfound, hcount⟩ :=
    ledger_after_append hled ⟨pid, qc, opID, opType, now⟩ rfl
  have hreplay : ∀ ph, ProductRepository.updateInventory
      { products := writeProduct st.products pid (fun _ => p'),
        inventoryOperations :=
          st.inventoryOperations ++ [⟨pid, qc, opID, opType, now⟩] }
      now ph pid qc opID opType =
      (.ok p'.inventory,
       { products := writeProduct st.products pid (fun _ => p'),
         inventoryOperations :=
           st.inventoryOperations ++ [⟨pid, qc, opID, opType, now⟩] }) :=
    fun ph => updateInventory_replay hkey hfound hfind1
  have hiter : ∀ M, adjustIter st now pid qc opID opType (M + 1) =
      { products := writeProduct st.products pid (fun _ => p'),
        inventoryOperations :=
          st.inventoryOperations ++ [⟨pid, qc, opID, opType, now⟩] } := by
    intro M
    induction M with
    | zero =>
        show (ProductRepository.updateInventory st now [] pid qc opID opType).2 = _
        rw [heq]
    | succ M ih =>
        show (ProductRepository.updateInventory
          (adjustIter st now pid qc opID opType (M + 1)) now [] pid qc opID opType).2 = _
        rw [ih, hreplay []]
  obtain ⟨M, hM⟩ := Nat.exists_eq_add_of_le hN
  refine ⟨p'.inventory, _, heq, ⟨p', hfind1, rfl⟩, hq, hcount, ?_, hreplay⟩
  rw [hM, Nat.add_comm]
  exact hiter M

/-- Witness for the amended C1: three repeated purchases of 2 under key `op1`
at the sample store. -/
theorem C1_amended_repo_idempotence_witness :
    ∃ inv st1,
      ProductRepository.updateInventory sampleState 1 [] "p1" (-2) "op1" "purchase" =
        (.ok inv, st1) ∧
      (∃ w, findProduct st1.products "p1" = some w ∧ w.inventory = inv) ∧
      inv.quantity = sampleProduct.inventory.quantity + (-2) ∧
      (st1.inventoryOperations.filter (fun op => op.operationID == "op1")).length = 1 ∧
      adjustIter sampleState 1 "p1" (-2) "op1" "purchase" 3 = st1 ∧
      (∀ ph, ProductRepository.updateInventory st1 1 ph "p1" (-2) "op1" "purchase" =
        (.ok inv, st1)) :=
  C1_amended_repo_idempotence sampleState 1 "p1" (-2) "op1" "purchase" sampleProduct
    (by decide) rfl rfl 3 (by decide)

/-- The increment transaction tail fails (and changes nothing) when the
product does not exist. -/
lemma applyIncAndFlag_none {st : StoreState} {now : Nat} {pid : String}
    {qc : Int} (h : findProduct st.products pid = none) :
    ProductRepository.applyIncAndFlag st now pid qc = .error .productNotFound := by
  unfold ProductRepository.applyIncAndFlag
  rw [h]

/-- If the increment is known to keep the touched product's quantity
non-negative, one repository adjustment preserves store-wide
non-negativity. -/
lemma repo_updateInventory_nonneg {st : StoreState} (now : Nat)
    (ph : List String) {pid : String} {qc : Int} (opID opType : String)
    (hinv : storeNonneg st)
    (hq : ∀ p, findProduct st.products pid = some p →
      0 ≤ p.inventory.quantity + qc) :
    storeNonneg (ProductRepository.updateInventory st now ph pid qc opID opType).2 := by
  unfold ProductRepository.updateInventory
  by_cases hkey : opID = ""
  · rw [if_pos hkey]
    cases hfp : findProduct st.products pid with
    | none =>
        rw [applyIncAndFlag_none hfp]
        exact hinv
    | some p =>
        obtain ⟨p', heq, hid, hq', hs, hr, hf⟩ :=
          applyIncAndFlag_spec now qc hfp
        rw [heq]
        intro x hx
        rcases mem_writeProduct_const hx with h | h
        · exact hinv x h
        · subst h
          constructor
          · rw [hq']
            exact hq p hfp
          · rw [hr]
            exact (hinv p (findProduct_mem hfp)).2
  · rw [if_neg hkey]
    cases hled : st.inventoryOperations.find? (fun op => op.operationID == opID) with
    | some e =>
        cases hfp : findProduct st.products pid with
        | some p => exact hinv
        | none => exact hinv
    | none =>
        by_cases hph : opID ∈ ph
        · rw [if_pos hph]
          exact hinv
        · rw [if_neg hph]
          simp only []
          cases hfp : findProduct st.products pid with
          | none =>
              have hfp1 : findProduct
                  ({ st with inventoryOperations :=
                      st.inventoryOperations ++ [⟨pid, qc, opID, opType, now⟩] } : StoreState).products
                  pid = none := hfp
              rw [applyIncAndFlag_none hfp1]
              exact hinv
          | some p =>
              have hfp1 : findProduct
                  ({ st with inventoryOperations :=
                      st.inventoryOperations ++ [⟨pid, qc, opID, opType, now⟩] } : StoreState).products
                  pid = some p := hfp
              obtain ⟨p', heq, hid, hq', hs, hr, hf⟩ :=
                applyIncAndFlag_spec now qc hfp1
              rw [heq]
              intro x hx
              rcases mem_writeProduct_const hx with h | h
              · exact hinv x h
              · subst h
                constructor
                · rw [hq']
                  exact hq p hfp
                · rw [hr]
                  exact (hinv p (findProduct_mem hfp)).2

/-- One facade adjustment whose negative deltas are confined to the pre-checked
purchase/reservation types preserves store-wide non-negativity. -/
lemma service_adjust_nonneg {st : StoreState} {now : Nat} {pid : String}
    {qc : Int} {opID opType : String}
    (hneg : qc < 0 → opType = "purchase" ∨ opType = "reservation")
    (hinv : storeNonneg st) :
    storeNonneg (ProductService.updateInventory st now [] pid qc opID opType).2 := by
  unfold ProductService.updateInventory
  by_cases h1 : opType ∉ ProductService.validOperationTypes
  · rw [if_pos h1]
    exact hinv
  · rw [if_neg h1]
    by_cases h2 : (opType = "purchase" ∨ opType = "reservation") ∧ qc < 0
    · rw [if_pos h2]
      cases hcs : ProductRepository.checkStock st pid (-qc) with
      | error e => exact hinv
      | ok pr =>
          obtain ⟨available, current⟩ := pr
          cases available with
          | false => exact hinv
          | true =>
              have hqb : ∀ p, findProduct st.products pid = some p →
                  0 ≤ p.inventory.quantity + qc := by
                intro p hfp
                have hcs2 : ProductRepository.checkStock st pid (-qc) =
                    .ok (decide (p.inventory.quantity - p.inventory.reserved ≥ -qc),
                         p.inventory.quantity - p.inventory.reserved) := by
                  unfold ProductRepository.checkStock
                  rw [hfp]
                rw [hcs] at hcs2
                simp only [Except.ok.injEq, Prod.mk.injEq] at hcs2
                obtain ⟨h3, -⟩ := hcs2
                have h4 : p.inventory.quantity - p.inventory.reserved ≥ -qc :=
                  of_decide_eq_true h3.symm
                have h5 : 0 ≤ p.inventory.reserved :=
                  (hinv p (findProduct_mem hfp)).2
                omega
              cases hrep : ProductRepository.updateInventory st now [] pid qc opID opType with
              | mk er st2 =>
                  have h := repo_updateInventory_nonneg now [] opID opType hinv hqb
                  rw [hrep] at h
                  cases er with
                  | error e => exact h
                  | ok inv => exact h
    · rw [if_neg h2]
      have hq0 : 0 ≤ qc := le_of_not_lt (fun hlt => h2 ⟨hneg hlt, hlt⟩)
      have hqb : ∀ p, findProduct st.products pid = some p →
          0 ≤ p.inventory.quantity + qc := by
        intro p hfp
        have h6 := (hinv p (findProduct_mem hfp)).1
        omega
      cases hrep : ProductRepository.updateInventory st now [] pid qc opID opType with
      | mk er st2 =>
          have h := repo_updateInventory_nonneg now [] opID opType hinv hqb
          rw [hrep] at h
          cases er with
          | error e => exact h
          | ok inv => exact h

/-- C2 counterexample: one successfully committed facade call of type
`adjustment` with delta −100 — not a purchase/reservation, so outside the
class the claim's pre-check hypothesis constrains (vacuously satisfied) —
drives the committed quantity to −95 < 0. -/
theorem C2_counterexample :
    ¬ (("adjustment" = "purchase" ∨ "adjustment" = "reservation") ∧ (-100 : Int) < 0) ∧
    (ProductService.updateInventory sampleState 1 [] "p1" (-100) "k1" "adjustment").1.isOk
      = true ∧
    ∃ p, findProduct
        (runAdjustments sampleState 1
          [{ productID := "p1", delta := -100, opID := "k1", opType := "adjustment" }]).products
        "p1" = some p ∧ p.inventory.quantity < 0 :=
  ⟨by decide, rfl,
   ⟨{ sampleProduct with updatedAt := 1, inventory := ⟨-95, "SKU-1", false, 0⟩ },
    rfl, by decide⟩⟩

/-- C2 amended: a sequence of facade adjustment calls in which every
stock-decreasing call carries operation type purchase or reservation — i.e.
every call of a type that bypasses the sufficiency pre-check has a
non-negative delta — keeps every product's committed quantity non-negative,
provided quantities and reservations start non-negative.  (As stated the
claim also admits negative-delta calls of types restock/release/adjustment,
which commit with no pre-check and can drive the quantity negative — see the
counterexample.) -/
theorem C2_amended_nonneg (st : StoreState) (now : Nat) (calls : List AdjustCall)
    (hcalls : ∀ c ∈ calls, c.delta < 0 →
      c.opType = "purchase" ∨ c.opType = "reservation")
    (hinv : storeNonneg st) :
    storeNonneg (runAdjustments st now calls) := by
  induction calls generalizing st with
  | nil => exact hinv
  | cons c cs ih =>
      rw [runAdjustments, List.foldl_cons]
      exact ih _ (fun d hd => hcalls d (List.mem_cons_of_mem _ hd))
        (service_adjust_nonneg (hcalls c (List.mem_cons_self _ _)) hinv)

/-- Witness for the amended C2: a purchase of 2 followed by a restock of 7 at
the sample store keeps quantities non-negative. -/
theorem C2_amended_nonneg_witness :
    storeNonneg (runAdjustments sampleState 1
      [{ productID := "p1", delta := -2, opID := "a1", opType := "purchase" },
       { productID := "p1", delta := 7, opID := "a2", opType := "restock" }]) :=
  C2_amended_nonneg sampleState 1
    [{ productID := "p1", delta := -2, opID := "a1", opType := "purchase" },
     { productID := "p1", delta := 7, opID := "a2", opType := "restock" }]
    (by decide)
    (by
      intro p hp
      have hps : p = sampleProduct := by simpa [sampleState] using hp
      subst hps
      exact ⟨by decide, by decide⟩)
